import Mathlib

/-!
A shallow embedding of qwertysh (src/main.c), a minimal interactive shell:
read a line, split it into whitespace-delimited tokens, dispatch the first
token against a fixed table of built-ins, otherwise launch an external
program and wait for it.  Pure data (lines, token lists) is modelled
directly; the operating system's responses (chdir outcome, child-process
outcome, and the unspecified value read after a function that falls off the
end without a return statement) are modelled as an explicit oracle record
passed to the functions that consult them.
-/

/-! ## Tokenizer (qwertysh_split_line, src/main.c lines 192-230) -/

/-- The delimiter set of the tokenizer: the C string " \t\r\n\a"
(qwertysh_TOK_DELIM, src/main.c line 193). -/
def qwertysh_TOK_DELIM : List Char := [' ', '\t', '\r', '\n', '\x07']

/-- Whether a character is one of the five delimiter characters. -/
def isDelim (c : Char) : Bool := qwertysh_TOK_DELIM.contains c

/-- The strtok loop of qwertysh_split_line: scan the characters, skipping
runs of delimiters, accumulating the current token in reverse in acc, and
emit each maximal non-empty run of non-delimiter characters in input
order. -/
def tokenizeGo : List Char → List Char → List (List Char)
  | [], acc => if acc.isEmpty then [] else [acc.reverse]
  | c :: cs, acc =>
    if isDelim c then
      if acc.isEmpty then tokenizeGo cs [] else acc.reverse :: tokenizeGo cs []
    else tokenizeGo cs (c :: acc)

/-- The token list produced by qwertysh_split_line, without the trailing
NULL sentinel: the maximal non-empty non-delimiter substrings of the line,
in input order. -/
def splitLine (line : String) : List String :=
  (tokenizeGo line.data []).map String.mk

/-- The full array returned by qwertysh_split_line: the tokens followed by
the NULL sentinel stored at tokens[position] (src/main.c line 228); NULL is
modelled as none. -/
def qwertysh_split_line (line : String) : List (Option String) :=
  (splitLine line).map some ++ [none]

/-! ## Operating-system oracle -/

/-- Terminal outcome of a launched child, as observed by the waitpid loop of
qwertysh_launch: the do/while keeps waiting until WIFEXITED or WIFSIGNALED
holds, so only terminal outcomes are observable.  execFailed is the child
whose execvp returned -1 (it reports the error and exits EXIT_FAILURE);
forkFailed means fork returned a negative pid in the parent. -/
inductive ChildOutcome where
  | exited : Nat → ChildOutcome
  | signaled : Nat → ChildOutcome
  | execFailed : ChildOutcome
  | forkFailed : ChildOutcome

/-- The operating system's responses consulted during one iteration:
chdir d is some newCwd on success and none on failure; clsUndef is the
unspecified value the caller reads after qwertysh_cls returns without a
return statement; childOutcome is the terminal state of a launched child. -/
structure Os where
  chdir : String → Option String
  clsUndef : Int
  childOutcome : ChildOutcome

/-- Observable effects of one built-in or launch: the int value the caller
reads, the resulting working directory, text printed to stdout, messages
reported to stderr, and whether the source function actually executed a
return statement (false only for qwertysh_cls, which falls off the end). -/
structure Effects where
  ret : Int
  cwd : String
  out : String
  err : List String
  retDefined : Bool
deriving DecidableEq

/-! ## Built-ins (src/main.c lines 23-96) -/

/-- The builtin_str table (src/main.c lines 23-28), in declaration order. -/
def builtin_str : List String := ["cd", "help", "exit", "cls"]

/-- The number of built-ins, sizeof(builtin_str)/sizeof(char *). -/
def qwertysh_num_builtins : Nat := builtin_str.length

/-- Builtin cd (src/main.c lines 51-61): if args[1] is NULL report
"qwertysh: expected argument to \"cd\"" to stderr; otherwise call chdir and
on failure report via perror("qwertysh"); always return 1. -/
def qwertysh_cd (os : Os) (cwd : String) (args : List String) : Effects :=
  match args with
  | _ :: d :: _ =>
    match os.chdir d with
    | some c => ⟨1, c, "", [], true⟩
    | none => ⟨1, cwd, "", ["qwertysh"], true⟩
  | _ => ⟨1, cwd, "", ["qwertysh: expected argument to \"cd\""], true⟩

/-- The text printed by the help built-in (src/main.c lines 68-81): a static
banner plus one indented line per entry of builtin_str. -/
def qwertysh_help_text : String :=
  "Corey Kennedy's qwertysh\n"
  ++ "Type program names and arguments, and hit enter.\n"
  ++ "The following are built in:\n"
  ++ String.join (builtin_str.map (fun s => "  " ++ s ++ "\n"))
  ++ "Use the man command for information on other programs.\n"

/-- Builtin help (src/main.c lines 68-81): prints the banner and the
built-in names; always returns 1. -/
def qwertysh_help (os : Os) (cwd : String) (args : List String) : Effects :=
  ⟨1, cwd, qwertysh_help_text, [], true⟩

/-- Builtin exit (src/main.c lines 88-91): ignores its arguments and
returns 0. -/
def qwertysh_exit (os : Os) (cwd : String) (args : List String) : Effects :=
  ⟨0, cwd, "", [], true⟩

/-- Builtin cls (src/main.c lines 93-96): prints the clear-screen escape
sequence ESC [ 2 J and ends WITHOUT a return statement, although declared
int; the value the caller reads is therefore unspecified, modelled by the
oracle field os.clsUndef, and retDefined records that no return was
executed. -/
def qwertysh_cls (os : Os) (cwd : String) (args : List String) : Effects :=
  ⟨os.clsUndef, cwd, "\x1b[2J", [], false⟩

/-- The builtin_func table (src/main.c lines 30-35), parallel to
builtin_str. -/
def builtin_func : List (Os → String → List String → Effects) :=
  [qwertysh_cd, qwertysh_help, qwertysh_exit, qwertysh_cls]

/-! ## Launcher (qwertysh_launch, src/main.c lines 102-125) -/

/-- qwertysh_launch: fork; in the child execvp the first token with the
token list as argv, reporting via perror("qwertysh") and exiting
EXIT_FAILURE if execvp fails; on fork failure report via
perror("qwertysh") in the parent; otherwise wait (through stopped states)
until the child exits or is signaled.  Returns 1 on every path. -/
def qwertysh_launch (os : Os) (cwd : String) (args : List String) : Effects :=
  match os.childOutcome with
  | .exited _ => ⟨1, cwd, "", [], true⟩
  | .signaled _ => ⟨1, cwd, "", [], true⟩
  | .execFailed => ⟨1, cwd, "", ["qwertysh"], true⟩
  | .forkFailed => ⟨1, cwd, "", ["qwertysh"], true⟩

/-! ## Dispatcher (qwertysh_execute, src/main.c lines 132-148) -/

/-- What the dispatcher did: nothing (args[0] was NULL), invoked the
built-in at a given table index, or delegated to the launcher. -/
inductive Dispatch where
  | emptyCmd : Dispatch
  | builtin : Nat → Dispatch
  | launched : Dispatch
deriving DecidableEq

/-- Result of qwertysh_execute: which action was dispatched and its
effects. -/
structure ExecResult where
  dispatch : Dispatch
  eff : Effects
deriving DecidableEq

/-- The linear scan of the dispatcher loop (src/main.c lines 141-145):
index of the first entry equal (string comparison, strcmp == 0) to the
first token, in table declaration order. -/
def scanBuiltins (a0 : String) : List String → Option Nat
  | [] => none
  | s :: rest => if a0 = s then some 0 else (scanBuiltins a0 rest).map Nat.succ

/-- qwertysh_execute: if args[0] is NULL (empty token list) return 1 doing
nothing; otherwise invoke the first built-in whose name equals args[0] and
return its value; if none matches, delegate to qwertysh_launch. -/
def qwertysh_execute (os : Os) (cwd : String) (args : List String) : ExecResult :=
  match args with
  | [] => ⟨.emptyCmd, ⟨1, cwd, "", [], true⟩⟩
  | a0 :: _ =>
    match scanBuiltins a0 builtin_str with
    | some i => ⟨.builtin i, (builtin_func.getD i qwertysh_launch) os cwd args⟩
    | none => ⟨.launched, qwertysh_launch os cwd args⟩

/-! ## Line Reader (qwertysh_read_line, src/main.c lines 150-190) -/

/-- The buffer growth increment qwertysh_RL_BUFSIZE (src/main.c
line 150). -/
def qwertysh_RL_BUFSIZE : Nat := 1024

/-- Result of reading one line: the accumulated text (the buffer contents
up to the terminating NUL), the final buffer capacity, whether every store
buffer[position] = c (including the final NUL store) had
position < bufsize, and the unconsumed remainder of the input stream. -/
structure ReadLineResult where
  line : String
  bufsize : Nat
  writesOk : Bool
  rest : List Char
deriving DecidableEq

/-- The getchar loop of qwertysh_read_line: on EOF (end of the input list)
or a newline, store NUL at the current position and return; otherwise store
the character, advance position, and when position >= bufsize grow bufsize
by qwertysh_RL_BUFSIZE and reallocate.  Each store is bounds-checked into
writesOk. -/
def read_line_go (pos : Nat) (bs : Nat) (acc : List Char) : List Char → ReadLineResult
  | [] => ⟨String.mk acc.reverse, bs, decide (pos < bs), []⟩
  | c :: cs =>
    if c = '\n' then ⟨String.mk acc.reverse, bs, decide (pos < bs), cs⟩
    else
      let ok := decide (pos < bs)
      let r := read_line_go (pos + 1)
        (if bs ≤ pos + 1 then bs + qwertysh_RL_BUFSIZE else bs) (c :: acc) cs
      ⟨r.line, r.bufsize, ok && r.writesOk, r.rest⟩

/-- qwertysh_read_line: run the getchar loop with position 0 and the
initial capacity qwertysh_RL_BUFSIZE = 1024 (src/main.c lines 157-159). -/
def qwertysh_read_line (input : List Char) : ReadLineResult :=
  read_line_go 0 qwertysh_RL_BUFSIZE [] input

/-! ## Main loop (qwertysh_loop, src/main.c lines 235-250) -/

/-- Observable outcome of one iteration of the do/while loop: the status
returned by qwertysh_execute (the loop continues, printing another prompt,
iff it is nonzero), the resulting working directory, and the rest of the
input stream. -/
structure IterResult where
  status : Int
  cwd : String
  rest : List Char
deriving DecidableEq

/-- One iteration of qwertysh_loop: print the prompt, read a line, split it
into tokens, execute, free the per-iteration allocations. -/
def qwertysh_loop_iter (os : Os) (cwd : String) (input : List Char) : IterResult :=
  let r := qwertysh_read_line input
  let args := splitLine r.line
  let e := qwertysh_execute os cwd args
  ⟨e.eff.ret, e.eff.cwd, r.rest⟩

/-- A concrete oracle in which chdir always fails, the unspecified value
read after qwertysh_cls is 0, and a child would exit normally. -/
def os0 : Os := ⟨fun _ => none, 0, .exited 0⟩

/-- A concrete oracle in which chdir always fails, the unspecified value
read after qwertysh_cls is 1, and a child would exit normally. -/
def os1 : Os := ⟨fun _ => none, 1, .exited 0⟩

/-- The prefix of the input stream consumed as the current line: everything
strictly before the first newline (all of it when there is none). -/
def beforeNL (input : List Char) : List Char :=
  input.takeWhile (fun c => !(c == '\n'))

/-! ## Helper lemmas -/

/-- The cd built-in returns 1 on every path (src/main.c line 60). -/
theorem qwertysh_cd_ret (os : Os) (cwd : String) (args : List String) :
    (qwertysh_cd os cwd args).ret = 1 := by
  rcases args with _ | ⟨a, _ | ⟨d, rest⟩⟩
  · rfl
  · rfl
  · cases h : os.chdir d <;> simp [qwertysh_cd, h]

/-- The launcher returns 1 on every path (src/main.c line 124). -/
theorem qwertysh_launch_ret (os : Os) (cwd : String) (args : List String) :
    (qwertysh_launch os cwd args).ret = 1 := by
  cases h : os.childOutcome <;> simp [qwertysh_launch, h]

/-- Provided the unspecified value read after cls is nonzero, the
dispatcher's status is stop (0) exactly when the first token is exit. -/
theorem execute_stop_iff (os : Os) (cwd : String) (h : os.clsUndef ≠ 0)
    (toks : List String) :
    ((qwertysh_execute os cwd toks).eff.ret = 0 ↔ toks.head? = some "exit") := by
  rcases toks with _ | ⟨a0, rest⟩
  · simp [qwertysh_execute]
  · by_cases h1 : a0 = "cd"
    · subst h1
      simp [qwertysh_execute, scanBuiltins, builtin_str, builtin_func,
        qwertysh_cd_ret]
    · by_cases h2 : a0 = "help"
      · subst h2
        simp [qwertysh_execute, scanBuiltins, builtin_str, builtin_func,
          qwertysh_help]
      · by_cases h3 : a0 = "exit"
        · subst h3
          simp [qwertysh_execute, scanBuiltins, builtin_str, builtin_func,
            qwertysh_exit]
        · by_cases h4 : a0 = "cls"
          · subst h4
            simp [qwertysh_execute, scanBuiltins, builtin_str, builtin_func,
              qwertysh_cls, h]
          · simp [qwertysh_execute, scanBuiltins, builtin_str, h1, h2, h3, h4,
              qwertysh_launch_ret, List.head?]

/-- A line whose characters are all delimiters tokenizes to the empty
list. -/
theorem tokenizeGo_all_delim : ∀ (input : List Char),
    input.all isDelim = true → tokenizeGo input [] = [] := by
  intro input
  induction input with
  | nil => intro _; rfl
  | cons c cs ih =>
    intro h
    rw [List.all_cons, Bool.and_eq_true] at h
    simpa [tokenizeGo, h.1] using ih h.2

/-- Invariant of the strtok loop: provided the accumulator holds only
non-delimiter characters, every emitted token is non-empty and free of
delimiter characters. -/
theorem tokenizeGo_inv : ∀ (input acc : List Char),
    acc.all (fun c => !(isDelim c)) = true →
    (tokenizeGo input acc).all
      (fun t => !(t.isEmpty) && t.all (fun c => !(isDelim c))) = true := by
  intro input
  induction input with
  | nil =>
    intro acc hacc
    by_cases he : acc.isEmpty
    · simp [tokenizeGo, he]
    · have hne : acc ≠ [] := by simpa [List.isEmpty_iff] using he
      simp [tokenizeGo, he, List.all_reverse, hacc, List.isEmpty_iff,
        List.reverse_eq_nil_iff, hne]
  | cons c cs ih =>
    intro acc hacc
    by_cases hd : isDelim c
    · by_cases he : acc.isEmpty
      · simpa [tokenizeGo, hd, he] using ih [] rfl
      · have hne : acc ≠ [] := by simpa [List.isEmpty_iff] using he
        have h1 := ih [] rfl
        simp [tokenizeGo, hd, he, List.all_cons, List.all_reverse, hacc, h1,
          List.isEmpty_iff, List.reverse_eq_nil_iff, hne]
    · have hacc2 : (c :: acc).all (fun c => !(isDelim c)) = true := by
        simp [List.all_cons, hd, hacc]
      simpa [tokenizeGo, hd] using ih (c :: acc) hacc2

/-- Mapping String.mk over a list of token character lists preserves an
all-quantified predicate, read through the data field. -/
theorem all_map_mk (L : List (List Char)) (p : String → Bool) :
    (L.map String.mk).all p = L.all (fun l => p (String.mk l)) := by
  induction L with
  | nil => rfl
  | cons a as ih => simp [List.all_cons, ih]

/-- Dropping everything from the first newline on, the consumed prefix of
a line followed by a newline is exactly that line. -/
theorem beforeNL_append : ∀ (l : List Char), ∀ (rest : List Char),
    l.all (fun c => !(c == '\n')) = true →
    beforeNL (l ++ '\n' :: rest) = l := by
  intro l rest
  induction l with
  | nil => intro _; simp [beforeNL]
  | cons c cs ih =>
    intro hn
    rw [List.all_cons, Bool.and_eq_true] at hn
    simp only [List.cons_append, beforeNL, List.takeWhile_cons, hn.1,
      if_true]
    simpa [beforeNL] using ih hn.2

/-- Invariant of the getchar loop: provided bufsize = 1024 * (pos/1024 + 1)
(which holds at entry with pos = 0, bufsize = 1024, and is preserved by the
grow-by-1024 step), the loop returns exactly the characters before the
first newline with no truncation, every buffer store is in bounds, and the
final capacity is determined by the number of characters consumed. -/
theorem read_line_go_spec : ∀ (input : List Char) (pos bs : Nat)
    (acc : List Char), bs = 1024 * (pos / 1024 + 1) →
    (read_line_go pos bs acc input).line
        = String.mk (acc.reverse ++ beforeNL input) ∧
    (read_line_go pos bs acc input).writesOk = true ∧
    (read_line_go pos bs acc input).bufsize
        = 1024 * ((pos + (beforeNL input).length) / 1024 + 1) := by
  intro input
  induction input with
  | nil =>
    intro pos bs acc hbs
    have hlt : pos < bs := by omega
    refine ⟨by simp [read_line_go, beforeNL], by simp [read_line_go, hlt],
      by simp [read_line_go, beforeNL, hbs]⟩
  | cons c cs ih =>
    intro pos bs acc hbs
    have hlt : pos < bs := by omega
    by_cases hc : c = '\n'
    · subst hc
      refine ⟨by simp [read_line_go, beforeNL, List.takeWhile_cons],
        by simp [read_line_go, hlt],
        by simp [read_line_go, beforeNL, List.takeWhile_cons, hbs]⟩
    · have hbeq : (c == '\n') = false := by simp [hc]
      have hbs2 : (if bs ≤ pos + 1 then bs + qwertysh_RL_BUFSIZE else bs)
          = 1024 * ((pos + 1) / 1024 + 1) := by
        unfold qwertysh_RL_BUFSIZE
        split <;> omega
      obtain ⟨h1, h2, h3⟩ := ih (pos + 1)
        (if bs ≤ pos + 1 then bs + qwertysh_RL_BUFSIZE else bs) (c :: acc)
        hbs2
      refine ⟨?_, ?_, ?_⟩
      · simp [read_line_go, hc, h1, beforeNL, List.takeWhile_cons, hbeq]
      · simp [read_line_go, hc, hlt, h2]
      · rw [show (read_line_go pos bs acc (c :: cs)).bufsize
              = (read_line_go (pos + 1)
                  (if bs ≤ pos + 1 then bs + qwertysh_RL_BUFSIZE else bs)
                  (c :: acc) cs).bufsize by simp [read_line_go, hc]]
        rw [h3]
        have hlen : (beforeNL (c :: cs)).length = (beforeNL cs).length + 1 := by
          simp [beforeNL, List.takeWhile_cons, hbeq]
        rw [hlen]
        congr 2
        omega

/-! ## Claim theorems -/

/-- C1: for every token list whose first token exactly equals
(case-sensitive string comparison) one of the built-in names, the
dispatcher invokes that built-in and no other, at the first matching index
in table declaration order, and returns its effects; when the first token
matches no built-in name it delegates to the launcher and returns the
launcher's effects. -/
theorem dispatcher_exact_first_match (os : Os) (cwd : String) (a0 : String)
    (rest : List String) :
    qwertysh_execute os cwd (a0 :: rest) =
      if a0 = "cd" then ⟨.builtin 0, qwertysh_cd os cwd (a0 :: rest)⟩
      else if a0 = "help" then ⟨.builtin 1, qwertysh_help os cwd (a0 :: rest)⟩
      else if a0 = "exit" then ⟨.builtin 2, qwertysh_exit os cwd (a0 :: rest)⟩
      else if a0 = "cls" then ⟨.builtin 3, qwertysh_cls os cwd (a0 :: rest)⟩
      else ⟨.launched, qwertysh_launch os cwd (a0 :: rest)⟩ := by
  by_cases h1 : a0 = "cd"
  · subst h1; rfl
  · by_cases h2 : a0 = "help"
    · subst h2; rfl
    · by_cases h3 : a0 = "exit"
      · subst h3; rfl
      · by_cases h4 : a0 = "cls"
        · subst h4; rfl
        · simp [qwertysh_execute, scanBuiltins, builtin_str, h1, h2, h3, h4]

/-- C3: the launcher returns the continue signal 1 for every oracle, hence
for every child outcome: normal exit with any status, termination by
signal, execvp failure, and fork failure; a failed external command never
stops the loop. -/
theorem launcher_always_continue (os : Os) (cwd : String)
    (args : List String) :
    (qwertysh_launch os cwd args).ret = 1 ∧
    (qwertysh_launch os cwd args).ret ≠ 0 := by
  refine ⟨qwertysh_launch_ret os cwd args, ?_⟩
  rw [qwertysh_launch_ret os cwd args]
  decide

/-- C5: tokenizing the line "echo  hello   world" collapses the delimiter
runs and yields exactly the tokens echo, hello, world in input order,
followed by the NULL sentinel. -/
theorem tokenize_echo_hello_world :
    splitLine "echo  hello   world" = ["echo", "hello", "world"] ∧
    qwertysh_split_line "echo  hello   world" =
      [some "echo", some "hello", some "world", none] := by
  exact ⟨rfl, rfl⟩

/-- C4: a line made only of delimiter characters tokenizes to the empty
token list (the array is just the NULL sentinel), and the dispatcher
returns 1 having invoked no built-in and launched nothing. -/
theorem delim_only_line_noop (os : Os) (cwd : String) (line : String)
    (h : line.data.all isDelim = true) :
    splitLine line = [] ∧ qwertysh_split_line line = [none] ∧
    qwertysh_execute os cwd (splitLine line) =
      ⟨.emptyCmd, ⟨1, cwd, "", [], true⟩⟩ := by
  have h0 : tokenizeGo line.data [] = [] := tokenizeGo_all_delim line.data h
  refine ⟨by simp [splitLine, h0], by simp [qwertysh_split_line, splitLine, h0],
    by simp [splitLine, h0, qwertysh_execute]⟩

/-- C4 witness: the concrete line of one space, tab, carriage return and
newline is all delimiters, tokenizes to the empty list with sentinel, and
the dispatcher returns 1 without dispatching anything. -/
theorem delim_only_line_noop_witness :
    " \t\r\n".data.all isDelim = true ∧
    (splitLine " \t\r\n" = [] ∧ qwertysh_split_line " \t\r\n" = [none] ∧
     qwertysh_execute os0 "/" (splitLine " \t\r\n") =
       ⟨.emptyCmd, ⟨1, "/", "", [], true⟩⟩) :=
  ⟨by decide, delim_only_line_noop os0 "/" " \t\r\n" (by decide)⟩

/-- C6: cd invoked with no directory argument reports an error and leaves
the working directory unchanged, and cd whose chdir call fails reports an
error and leaves the working directory unchanged; both return the continue
signal 1. -/
theorem cd_error_paths (os : Os) (cwd : String) (a0 d : String)
    (rest : List String) (hfail : os.chdir d = none) :
    qwertysh_cd os cwd [a0] =
      ⟨1, cwd, "", ["qwertysh: expected argument to \"cd\""], true⟩ ∧
    qwertysh_cd os cwd (a0 :: d :: rest) =
      ⟨1, cwd, "", ["qwertysh"], true⟩ := by
  exact ⟨rfl, by simp [qwertysh_cd, hfail]⟩

/-- C6 witness: under the oracle in which chdir always fails, cd with no
argument and cd with a nonexistent path both leave the working directory
at /home, report an error, and return 1. -/
theorem cd_error_paths_witness :
    os0.chdir "/nonexistent-path" = none ∧
    (qwertysh_cd os0 "/home" ["cd"] =
       ⟨1, "/home", "", ["qwertysh: expected argument to \"cd\""], true⟩ ∧
     qwertysh_cd os0 "/home" ["cd", "/nonexistent-path"] =
       ⟨1, "/home", "", ["qwertysh"], true⟩) :=
  ⟨rfl, cd_error_paths os0 "/home" "cd" "/nonexistent-path" [] rfl⟩

/-- C7: the line reader starts at capacity 1024 and grows by 1024; reading
a line of length exactly 1024 or exactly 1025 followed by a newline
returns the full line without truncation, every buffer store (including
the final NUL) is within the capacity at the time of the store, and the
capacity has grown exactly once, to 2048. -/
theorem read_line_growth_no_truncation (l rest : List Char)
    (hn : l.all (fun c => !(c == '\n')) = true)
    (hlen : l.length = 1024 ∨ l.length = 1025) :
    (qwertysh_read_line (l ++ '\n' :: rest)).line = String.mk l ∧
    (qwertysh_read_line (l ++ '\n' :: rest)).writesOk = true ∧
    (qwertysh_read_line (l ++ '\n' :: rest)).bufsize = 2048 := by
  have hb : beforeNL (l ++ '\n' :: rest) = l := beforeNL_append l rest hn
  obtain ⟨h1, h2, h3⟩ :=
    read_line_go_spec (l ++ '\n' :: rest) 0 1024 [] (by norm_num)
  refine ⟨?_, ?_, ?_⟩
  · simp only [qwertysh_read_line, qwertysh_RL_BUFSIZE]
    rw [h1, hb]
    simp
  · simp only [qwertysh_read_line, qwertysh_RL_BUFSIZE]
    exact h2
  · simp only [qwertysh_read_line, qwertysh_RL_BUFSIZE]
    rw [h3, hb]
    rcases hlen with h | h <;> rw [h]

/-- C7 witness: a concrete line of 1024 letters a followed by a newline is
read back whole, with all stores in bounds and final capacity 2048. -/
theorem read_line_growth_no_truncation_witness :
    (qwertysh_read_line (List.replicate 1024 'a' ++ '\n' :: [])).line
      = String.mk (List.replicate 1024 'a') ∧
    (qwertysh_read_line (List.replicate 1024 'a' ++ '\n' :: [])).writesOk
      = true ∧
    (qwertysh_read_line (List.replicate 1024 'a' ++ '\n' :: [])).bufsize
      = 2048 :=
  read_line_growth_no_truncation (List.replicate 1024 'a') []
    (by
      rw [List.all_eq_true]
      intro c hc
      have h := List.eq_of_mem_replicate hc
      subst h
      rfl)
    (Or.inl (List.length_replicate ..))

/-- C10: every token produced by the tokenizer is a non-empty string
containing none of the five delimiter characters, and the returned array
always ends with the NULL sentinel, with no NULL among the tokens before
it, including for the empty token list. -/
theorem tokens_nonempty_no_delims_sentinel (line : String) :
    (splitLine line).all
      (fun t => !(t.data.isEmpty) && t.data.all (fun c => !(isDelim c)))
      = true ∧
    (qwertysh_split_line line).getLast? = some none ∧
    (qwertysh_split_line line).dropLast.all Option.isSome = true := by
  refine ⟨?_, by simp [qwertysh_split_line], by simp [qwertysh_split_line]⟩
  rw [splitLine, all_map_mk]
  exact tokenizeGo_inv line.data [] rfl

/-- C2 counterexample: because qwertysh_cls falls off the end without a
return statement, the status the dispatcher hands to the loop after the
line cls is unspecified; under the legal resolution in which that value is
0 (oracle os0) the iteration on the line cls ends the loop even though its
first token is not exit, so exit is not the sole terminating input as
claimed. -/
theorem cls_line_can_stop_loop :
    (qwertysh_loop_iter os0 "/" ("cls".data)).status = 0 ∧
    (splitLine (qwertysh_read_line ("cls".data)).line).head? ≠ some "exit" :=
  ⟨rfl, by decide⟩

/-- C2 amended: the exit built-in ignores its arguments and returns the
stop signal 0; and provided the unspecified value read after the
return-less qwertysh_cls is nonzero (as the source intends for every
built-in other than exit), a loop iteration ends the loop if and only if
the first token of the line read is exit. -/
theorem exit_sole_stop_modulo_cls (os : Os) (cwd : String)
    (args : List String) (input : List Char) (h : os.clsUndef ≠ 0) :
    qwertysh_exit os cwd args = ⟨0, cwd, "", [], true⟩ ∧
    ((qwertysh_loop_iter os cwd input).status = 0 ↔
      (splitLine (qwertysh_read_line input).line).head? = some "exit") :=
  ⟨rfl, execute_stop_iff os cwd h (splitLine (qwertysh_read_line input).line)⟩

/-- C2 witness: under the oracle os1, whose unspecified cls value is 1,
the iteration on the concrete input line exit stops the loop, and exit
with arguments returns 0. -/
theorem exit_sole_stop_modulo_cls_witness :
    qwertysh_exit os1 "/" ["exit", "now"] = ⟨0, "/", "", [], true⟩ ∧
    ((qwertysh_loop_iter os1 "/" ("exit".data)).status = 0 ↔
      (splitLine (qwertysh_read_line ("exit".data)).line).head?
        = some "exit") :=
  exit_sole_stop_modulo_cls os1 "/" ["exit", "now"] ("exit".data) (by decide)

/-- C8 counterexample: on immediate end of stream the line reader returns
the empty string, the token list is empty, and the dispatcher's status is
1, not 0: the iteration does NOT end the loop, contradicting the claim
that the empty line leads to termination of the main loop. -/
theorem eof_line_does_not_stop_loop :
    (qwertysh_loop_iter os0 "/" []).status = 1 ∧
    ¬ (qwertysh_loop_iter os0 "/" []).status = 0 :=
  ⟨rfl, by decide⟩

/-- C8 amended: when the input stream ends immediately, the line reader
returns the empty string (never a null result in the source short of a
fatal allocation failure), the tokenizer yields the empty token list, and
the dispatcher returns the continue signal 1, so the loop prompts again
rather than terminating. -/
theorem eof_empty_line_continues (os : Os) (cwd : String) :
    (qwertysh_read_line []).line = "" ∧ splitLine "" = [] ∧
    (qwertysh_loop_iter os cwd []).status = 1 :=
  ⟨rfl, rfl, rfl⟩

/-- C9: qwertysh_cls prints the clear-screen escape sequence ESC [ 2 J but
ends without executing a return statement (retDefined = false), so the
value the dispatcher reads is unspecified rather than a guaranteed nonzero
continue signal; under the legal resolution 0 (oracle os0) the dispatcher
hands the loop the stop status 0 on the line cls. -/
theorem cls_missing_return_value :
    qwertysh_cls os0 "/" ["cls"] = ⟨0, "/", "\x1b[2J", [], false⟩ ∧
    (qwertysh_execute os0 "/" ["cls"]).eff.retDefined = false ∧
    (qwertysh_execute os0 "/" ["cls"]).eff.ret = 0 :=
  ⟨rfl, rfl, rfl⟩
